import Mathlib

/-!
Shallow embedding of the py_load_pmda incremental-load pipeline core
(src/py_load_pmda: orchestrator.py, interfaces.py, validator.py,
extractor.py, adapters/postgres.py, adapters/redshift.py), together with
theorems settling the behavioural claims about it.

Conventions of the embedding:
* DataFrame columns are modelled as lists of nullable integer cells
  (`Option Int`); a `none` cell is a pandas null (NaN).
* Python dicts used as watermarks are modelled as association lists of
  strings; dict truthiness is list non-emptiness.
* Fallible operations return values paired with `Option` errors; an
  exception is a `some` error.
* Side effects (database statements, HTTP requests, sleeps) are recorded
  as explicit action traces so that temporal claims are about traces.
-/

namespace PyLoadPmda

/-- A single apostrophe character, used when reproducing the quoted
column names appearing in validator error messages. -/
def sq : String := String.singleton (Char.ofNat 39)

/-- Wrap a string in single quotes, as the Python f-strings of
validator.py do with column names. -/
def quoted (s : String) : String := sq ++ s ++ sq

/-- Decides whether `needle` is a prefix of `hay` (over char lists). -/
def listPrefixEq : List Char → List Char → Bool
  | [], _ => true
  | _ :: _, [] => false
  | a :: as, b :: bs => a == b && listPrefixEq as bs

/-- Decides whether `needle` occurs contiguously inside `hay`. -/
def listOccurs (needle : List Char) : List Char → Bool
  | [] => needle.isEmpty
  | c :: cs => listPrefixEq needle (c :: cs) || listOccurs needle cs

/-- Decides whether the string `needle` occurs as a substring of `hay`. -/
def strOccurs (needle hay : String) : Bool := listOccurs needle.data hay.data

/-! ## Data Validator (validator.py)

`DataValidator.validate` iterates over declarative rules, dispatching on
the check name to the `_check_...` methods, accumulating human-readable
error strings; it returns `True` exactly when no error was accumulated.
Columns are modelled as nullable-integer series. -/

/-- A validation rule: the `column`, `check` and parameter entries of the
rule dict of validator.py (parameters of checks the rule does not use are
ignored, as `**kwargs` ignores them in the source). -/
structure ValRule where
  column : String
  check : String
  typeName : Option String
  minValue : Option Int
  maxValue : Option Int
  allowed : List Int
deriving DecidableEq, Repr

/-- A DataFrame: association list from column name to cells. -/
def Frame := List (String × List (Option Int))

/-- Column lookup, `df[column]` after the `column in df.columns` test. -/
def Frame.col (df : Frame) (c : String) : Option (List (Option Int)) :=
  match df.find? (fun p => p.1 == c) with
  | some p => some p.2
  | none => none

/-- `df[column].isnull().sum()`. -/
def countNulls (cells : List (Option Int)) : Nat :=
  cells.countP (fun c => c.isNone)

/-- The check names for which a `_check_<name>` method exists on
DataValidator (`getattr` succeeds exactly for these). -/
def knownChecks : List String :=
  ["not_null", "is_unique", "has_type", "is_in_range", "is_in_set"]

/-- `_check_not_null`: appends an error when the column has nulls. -/
def checkNotNull (errs : List String) (c : String)
    (cells : List (Option Int)) : List String :=
  if 0 < countNulls cells then
    errs ++ ["Column " ++ quoted c ++ " has " ++ toString (countNulls cells)
      ++ " null values."]
  else errs

/-- `_check_is_unique`: appends an error when the column has duplicate
values; the reported count is the number of distinct duplicated values. -/
def checkIsUnique (errs : List String) (c : String)
    (cells : List (Option Int)) : List String :=
  if cells.Nodup then errs
  else
    errs ++ ["Column " ++ quoted c ++ " is not unique. Found "
      ++ toString ((cells.dedup.filter (fun v => 2 ≤ cells.count v)).length)
      ++ " duplicate values."]

/-- `_check_has_type` for nullable-integer columns: for the numeric and
datetime branches `pd.to_numeric`/`pd.to_datetime` with coercion turn
nulls into NaN/NaT, so the check fails exactly when a null is present;
the fallback branch compares the dtype name, which for an integer column
is int64 when no null is present and float64 otherwise. -/
def checkHasType (errs : List String) (c : String) (t : String)
    (cells : List (Option Int)) : List String :=
  if t = "integer" then
    if 0 < countNulls cells then
      errs ++ ["Column " ++ quoted c ++ " contains non-integer values."]
    else errs
  else if t = "float" then
    if 0 < countNulls cells then
      errs ++ ["Column " ++ quoted c ++ " contains non-float values."]
    else errs
  else if t = "datetime" then
    if 0 < countNulls cells then
      errs ++ ["Column " ++ quoted c ++ " contains non-datetime values."]
    else errs
  else
    let dtype := if countNulls cells = 0 then "int64" else "float64"
    if dtype ≠ t then
      errs ++ ["Column " ++ quoted c ++ " has type " ++ dtype
        ++ ", expected " ++ t ++ "."]
    else errs

/-- Whether one cell is inside `[lo, hi]`; a null coerces to NaN, for
which `between` is false. -/
def cellInRange (lo hi : Int) : Option Int → Bool
  | none => false
  | some v => decide (lo ≤ v ∧ v ≤ hi)

/-- `_check_is_in_range`. -/
def checkIsInRange (errs : List String) (c : String) (lo hi : Int)
    (cells : List (Option Int)) : List String :=
  if cells.all (cellInRange lo hi) then errs
  else
    errs ++ ["Column " ++ quoted c ++ " has "
      ++ toString ((cells.filter (fun v => !(cellInRange lo hi v))).length)
      ++ " values outside the range [" ++ toString lo ++ ", "
      ++ toString hi ++ "]."]

/-- Whether one cell is a member of the allowed set; a null, like NaN
under `isin`, is never a member. -/
def cellInSet (allowed : List Int) : Option Int → Bool
  | none => false
  | some v => allowed.contains v

/-- `_check_is_in_set`. -/
def checkIsInSet (errs : List String) (c : String) (allowed : List Int)
    (cells : List (Option Int)) : List String :=
  if cells.all (cellInSet allowed) then errs
  else
    errs ++ ["Column " ++ quoted c
      ++ " contains values not in the allowed set: "
      ++ toString (((cells.filter (fun v => !(cellInSet allowed v))).map
            (fun v => v.getD 0)).dedup) ++ "."]

/-- Dispatch of one rule to its `_check_...` method (the check name is
already known to be in `knownChecks` and the column to exist). -/
def applyCheck (errs : List String) (r : ValRule)
    (cells : List (Option Int)) : List String :=
  if r.check = "not_null" then checkNotNull errs r.column cells
  else if r.check = "is_unique" then checkIsUnique errs r.column cells
  else if r.check = "has_type" then
    checkHasType errs r.column (r.typeName.getD "") cells
  else if r.check = "is_in_range" then
    checkIsInRange errs r.column (r.minValue.getD 0) (r.maxValue.getD 0) cells
  else checkIsInSet errs r.column r.allowed cells

/-- One iteration of the rule loop of `DataValidator.validate`. -/
def validateStep (df : Frame) (errs : List String) (r : ValRule) :
    List String :=
  if !(knownChecks.contains r.check) then
    errs ++ ["Unknown validation check: " ++ r.check]
  else
    match Frame.col df r.column with
    | none =>
        errs ++ ["Validation failed: Column " ++ quoted r.column
          ++ " not found in DataFrame."]
    | some cells => applyCheck errs r cells

/-- `DataValidator.validate`: returns the boolean verdict together with
the accumulated `self.errors` list (`rules = none` models a validator
constructed with `rules is None`, which skips validation). -/
def validate (rules : Option (List ValRule)) (df : Frame) :
    Bool × List String :=
  match rules with
  | none => (true, [])
  | some rs =>
      let errs := rs.foldl (validateStep df) []
      (errs.isEmpty, errs)

/-- The rule of claim C10. -/
def notNullIdRule : ValRule :=
  ⟨"id", "not_null", none, none, none, []⟩

/-- The failing frame of claim C10: id column 1, null, 3. -/
def frameWithNull : Frame := [("id", [some 1, none, some 3])]

/-- The passing frame of claim C10: id column 1, 2, 3. -/
def frameNoNull : Frame := [("id", [some 1, some 2, some 3])]

/-! ## Fetch client retries (extractor.py, BaseExtractor._send_request)

The loop `for attempt in range(self.retries)` sleeps a fixed politeness
second, issues the request, returns on success, and on failure sleeps
`backoff_factor * 2 ** attempt + random.uniform(0, 1)` before the next
attempt; the final failing attempt re-raises. The HTTP endpoint and the
random jitter are environment oracles; the politeness sleeps, requests
and backoff sleeps are recorded as events. -/

/-- Observable events of `_send_request`: the fixed one-second politeness
sleep before each request, the request of a given attempt index, and a
backoff sleep of a given duration. -/
inductive FetchEvent
  | politeness
  | request (attempt : Nat)
  | backoff (duration : ℚ)
deriving DecidableEq, Repr

/-- Environment of a fetch: whether the attempt with a given index
succeeds, and the jitter drawn by `random.uniform(0, 1)` on the backoff
after that attempt. -/
structure FetchEnv where
  ok : Nat → Bool
  jitter : Nat → ℚ

/-- The retry loop of `_send_request`, structurally recursive on the
number of loop iterations left; `attempt` is the current loop index.
Returns the event list and whether a response was returned (`false`
models the exception escaping). -/
def sendAttempts (retries : Nat) (base : ℚ) (env : FetchEnv) :
    Nat → Nat → List FetchEvent × Bool
  | 0, _ => ([], false)
  | remaining + 1, attempt =>
      let evs := [FetchEvent.politeness, FetchEvent.request attempt]
      if env.ok attempt then (evs, true)
      else if attempt < retries - 1 then
        let rest := sendAttempts retries base env remaining (attempt + 1)
        (evs ++ FetchEvent.backoff (base * 2 ^ attempt + env.jitter attempt)
          :: rest.1, rest.2)
      else (evs, false)

/-- `BaseExtractor._send_request` with `self.retries = retries` and
`self.backoff_factor = base`. -/
def sendRequest (retries : Nat) (base : ℚ) (env : FetchEnv) :
    List FetchEvent × Bool :=
  sendAttempts retries base env retries 0

/-- Number of HTTP requests in a fetch event list. -/
def requestTally (evs : List FetchEvent) : Nat :=
  evs.countP (fun e => match e with | FetchEvent.request _ => true | _ => false)

/-- The backoff sleep durations of a fetch event list, in order. -/
def backoffSleeps : List FetchEvent → List ℚ
  | [] => []
  | FetchEvent.backoff d :: rest => d :: backoffSleeps rest
  | _ :: rest => backoffSleeps rest

/-! ## Run-State Store writes (adapters/postgres.py and
adapters/redshift.py, update_state)

A state row mirrors the columns of `ingestion_state`. Timestamps are an
abstract counter; the watermark is its serialized JSON string. The prior
content of the store for the dataset is `Option StateRow`. -/

/-- One row of the `ingestion_state` table. -/
structure StateRow where
  dataset_id : String
  last_run_ts : Nat
  last_successful_run_ts : Option Nat
  status : String
  last_watermark : String
  pipeline_version : String
deriving DecidableEq, Repr

/-- `PostgreSQLAdapter.update_state`: INSERT .. ON CONFLICT (dataset_id)
DO UPDATE, where the inserted `last_successful_run_ts_utc` is `now` for
SUCCESS and NULL otherwise, and the conflict update keeps the stored
`last_successful_run_ts_utc` via CASE unless the new status is SUCCESS. -/
def pgUpdateState (prior : Option StateRow) (ds : String) (wm : String)
    (status : String) (now : Nat) (ver : String) : StateRow :=
  let inserted : Option Nat := if status = "SUCCESS" then some now else none
  match prior with
  | none => ⟨ds, now, inserted, status, wm, ver⟩
  | some old =>
      ⟨ds, now,
        if status = "SUCCESS" then inserted else old.last_successful_run_ts,
        status, wm, ver⟩

/-- `RedshiftAdapter.update_state`: DELETE of the dataset row followed by
a plain INSERT whose `last_successful_run_ts_utc` is `now` for SUCCESS
and NULL otherwise; the prior row does not survive. -/
def rsUpdateState (_prior : Option StateRow) (ds : String) (wm : String)
    (status : String) (now : Nat) (ver : String) : StateRow :=
  ⟨ds, now, if status = "SUCCESS" then some now else none, status, wm, ver⟩

/-! ## Staged-merge upsert (execute_merge of both SQL adapters)

Tables with at least one primary-key column and at least one non-key
column are modelled as lists of rows `(k, v)`: `k` is the (possibly
composite) primary-key part, `v` the non-key payload. The PostgreSQL
statement is `INSERT INTO target SELECT ... FROM staging ON CONFLICT
(pks) DO UPDATE SET nonkeys = EXCLUDED...`, which processes staging rows
one at a time, updating the conflicting target row or appending;
the Redshift statement is `MERGE INTO target USING staging ON keys WHEN
MATCHED THEN UPDATE WHEN NOT MATCHED THEN INSERT`, which updates every
matched target row from its staging source and appends the unmatched
staging rows. -/

section Merge

variable {K V : Type} [DecidableEq K]

/-- Effect of inserting one staging row under ON CONFLICT DO UPDATE:
if the key is present in the target the non-key columns of that row are
set from the excluded (staging) row, otherwise the row is appended. -/
def upsertRow (target : List (K × V)) (r : K × V) : List (K × V) :=
  if target.any (fun t => decide (t.1 = r.1)) then
    target.map (fun t => if t.1 = r.1 then (t.1, r.2) else t)
  else target ++ [r]

/-- `PostgreSQLAdapter.execute_merge` row semantics. -/
def pgExecuteMerge (target staging : List (K × V)) : List (K × V) :=
  staging.foldl upsertRow target

/-- The WHEN MATCHED branch of the SQL MERGE applied to one target row:
if a staging row carries the same key, the non-key columns are taken
from it, otherwise the row is left alone. -/
def mergeRowUpdate (staging : List (K × V)) (t : K × V) : K × V :=
  match staging.find? (fun s => decide (s.1 = t.1)) with
  | some s => (t.1, s.2)
  | none => t

/-- `RedshiftAdapter.execute_merge` row semantics (SQL MERGE): matched
target rows are updated from staging, unmatched staging rows are
inserted. -/
def rsExecuteMerge (target staging : List (K × V)) : List (K × V) :=
  target.map (mergeRowUpdate staging)
  ++ staging.filter (fun s => !(target.any (fun t => decide (t.1 = s.1))))

/-- Modelled from the spec words of section 4.2: the observable result
of a merge is the union of target and staging rows in which the staging
row wins whenever its primary key also exists in the target. -/
def mergeSpecRows (target staging : List (K × V)) : List (K × V) :=
  target.filter (fun t => !(staging.any (fun s => decide (s.1 = t.1))))
    ++ staging

/-- The primary keys of a table. -/
def keysOf (rows : List (K × V)) : List K := rows.map Prod.fst

end Merge

/-! ## Transaction statements issued by individual loader methods

For the transaction-boundary claim, each loader method of the two SQL
adapters is rendered as the list of database/system operations it issues
on the connection, with a flag saying whether the underlying statements
raise (in which case the except-branch of the method runs). -/

/-- Operations a loader method can issue. -/
inductive DbOp
  | createSchema
  | createTable (t : String)
  | truncate (t : String)
  | copyFrom (t : String)
  | infoSchemaQuery
  | mergeStmt (staging target : String)
  | upsertStateStmt
  | deleteStateStmt
  | insertStateStmt
  | s3Upload
  | s3Delete
  | commitTx
  | rollbackTx
deriving DecidableEq, Repr

/-- `PostgreSQLAdapter.ensure_schema`: creates schema and tables then
commits; on a database error it rolls back and re-raises. -/
def pgEnsureSchemaOps (tables : List String) (ok : Bool) : List DbOp :=
  if ok then
    DbOp.createSchema :: tables.map DbOp.createTable ++ [DbOp.commitTx]
  else [DbOp.createSchema, DbOp.rollbackTx]

/-- `PostgreSQLAdapter.bulk_load`: optional truncate, COPY FROM STDIN,
then commit; rollback on error; empty data or an invalid mode issue no
statement. The second component is `true` when the call raises. -/
def pgBulkLoadOps (isEmpty : Bool) (mode : String) (table : String)
    (ok : Bool) : List DbOp × Bool :=
  if isEmpty then ([], false)
  else if mode ≠ "append" ∧ mode ≠ "overwrite" then ([], true)
  else if ok then
    ((if mode = "overwrite" then [DbOp.truncate table] else [])
      ++ [DbOp.copyFrom table, DbOp.commitTx], false)
  else ([DbOp.rollbackTx], true)

/-- `PostgreSQLAdapter.execute_merge`: reads the staging columns from
information_schema, skips with a warning when the staging table has no
column or no non-key column, otherwise runs the upsert statement and
commits; rollback on error. -/
def pgExecuteMergeOps (staging target : String) (primaryKeys : List String)
    (stagingCols : List String) (ok : Bool) : List DbOp × Bool :=
  if primaryKeys.isEmpty then ([], true)
  else if !ok then ([DbOp.infoSchemaQuery, DbOp.rollbackTx], true)
  else if stagingCols.isEmpty then ([DbOp.infoSchemaQuery], false)
  else if (stagingCols.filter (fun c => !(primaryKeys.contains c))).isEmpty
  then ([DbOp.infoSchemaQuery], false)
  else
    ([DbOp.infoSchemaQuery, DbOp.mergeStmt staging target, DbOp.commitTx],
      false)

/-- `PostgreSQLAdapter.update_state`: single upsert statement then
commit; rollback on error. -/
def pgUpdateStateOps (ok : Bool) : List DbOp :=
  if ok then [DbOp.upsertStateStmt, DbOp.commitTx]
  else [DbOp.upsertStateStmt, DbOp.rollbackTx]

/-- `RedshiftAdapter.ensure_schema`: creates schema and tables and does
not commit; rollback on error. -/
def rsEnsureSchemaOps (tables : List String) (ok : Bool) : List DbOp :=
  if ok then DbOp.createSchema :: tables.map DbOp.createTable
  else [DbOp.createSchema, DbOp.rollbackTx]

/-- `RedshiftAdapter.bulk_load`: stages a Parquet object on S3, optional
truncate, COPY from S3, no commit; rollback on error; the S3 object is
deleted in a finally block either way. -/
def rsBulkLoadOps (isEmpty : Bool) (mode : String) (table : String)
    (ok : Bool) : List DbOp × Bool :=
  if isEmpty then ([], false)
  else if mode ≠ "append" ∧ mode ≠ "overwrite" then ([], true)
  else if ok then
    (DbOp.s3Upload :: (if mode = "overwrite" then [DbOp.truncate table]
        else [])
      ++ [DbOp.copyFrom table, DbOp.s3Delete], false)
  else ([DbOp.s3Upload, DbOp.rollbackTx, DbOp.s3Delete], true)

/-- `RedshiftAdapter.execute_merge`: reads the staging columns, skips
when there is none, otherwise runs MERGE and does not commit; rollback
on error. -/
def rsExecuteMergeOps (staging target : String) (primaryKeys : List String)
    (stagingCols : List String) (ok : Bool) : List DbOp × Bool :=
  if primaryKeys.isEmpty then ([], true)
  else if !ok then ([DbOp.infoSchemaQuery, DbOp.rollbackTx], true)
  else if stagingCols.isEmpty then ([DbOp.infoSchemaQuery], false)
  else ([DbOp.infoSchemaQuery, DbOp.mergeStmt staging target], false)

/-- `RedshiftAdapter.update_state`: DELETE then INSERT, no commit;
rollback on error. -/
def rsUpdateStateOps (ok : Bool) : List DbOp :=
  if ok then [DbOp.deleteStateStmt, DbOp.insertStateStmt]
  else [DbOp.deleteStateStmt, DbOp.rollbackTx]

/-! ## Adapter construction (interfaces.py and get_db_adapter)

`LoaderInterface` is an abstract base class; Python raises `TypeError`
on instantiating a subclass that leaves any abstractmethod without an
override. The method names below are transcribed from the three adapter
class bodies. -/

/-- The abstractmethod names declared on `LoaderInterface`. -/
def loaderAbstractMethods : List String :=
  ["connect", "disconnect", "commit", "rollback", "ensure_schema",
   "bulk_load", "execute_merge", "get_latest_state", "update_state",
   "get_all_states", "execute_sql"]

/-- The methods `PostgreSQLAdapter` defines (adapters/postgres.py). -/
def postgresAdapterMethods : List String :=
  ["connect", "ensure_schema", "bulk_load", "execute_merge",
   "get_latest_state", "update_state"]

/-- The methods `RedshiftAdapter` defines (adapters/redshift.py). -/
def redshiftAdapterMethods : List String :=
  ["connect", "disconnect", "commit", "rollback", "execute_sql",
   "ensure_schema", "bulk_load", "execute_merge", "get_latest_state",
   "update_state", "get_all_states"]

/-- The methods `BigQueryLoader` defines (adapters/bigquery.py). -/
def bigqueryAdapterMethods : List String :=
  ["connect", "disconnect", "commit", "rollback", "execute_sql",
   "ensure_schema", "bulk_load", "execute_merge", "get_latest_state",
   "update_state", "get_all_states"]

/-- Abstract methods of `LoaderInterface` a class leaves unimplemented. -/
def missingAbstractMethods (impl : List String) : List String :=
  loaderAbstractMethods.filter (fun m => !(impl.contains m))

/-- Python semantics of instantiating a `LoaderInterface` subclass:
`TypeError` exactly when some abstractmethod has no override. -/
def abcInstantiationRaises (impl : List String) : Bool :=
  !(missingAbstractMethods impl).isEmpty

/-- Exceptions the embedded pipeline distinguishes. -/
inductive PyError
  | typeError
  | notImplementedError
  | valueError (msg : String)
  | connectionError
  | adapterOpError (op : String)
  | extractError
  | parseError
  | transformError
deriving DecidableEq, Repr

/-- `get_db_adapter` (orchestrator.py): dispatch on the configured type;
constructing the class raises `TypeError` when it leaves abstract
methods unimplemented; unknown types raise `NotImplementedError`. -/
def get_db_adapter (dbType : String) : Except PyError String :=
  if dbType = "postgres" then
    if abcInstantiationRaises postgresAdapterMethods then
      Except.error PyError.typeError
    else Except.ok "postgres"
  else if dbType = "redshift" then
    if abcInstantiationRaises redshiftAdapterMethods then
      Except.error PyError.typeError
    else Except.ok "redshift"
  else if dbType = "bigquery" then
    if abcInstantiationRaises bigqueryAdapterMethods then
      Except.error PyError.typeError
    else Except.ok "bigquery"
  else Except.error PyError.notImplementedError

/-! ## Orchestrator (orchestrator.py)

`Orchestrator.run` and its `_load_data`/`_load_table` helpers are
embedded as trace-producing functions. The ETL collaborators and the
adapter are oracles provided by an environment: each fallible call has a
flag (or an `Option` result) saying whether it raises, mirroring how the
contract treats them as opaque. The embedding covers the generic
single-artifact branch of `run` (datasets other than the two multi-PDF
ones); watermarks are association lists, with dict truthiness being
non-emptiness. -/

/-- A watermark dict, e.g. etag and last_modified entries. -/
def Watermark := List (String × String)
deriving instance DecidableEq, Repr for Watermark

/-- Actions observable during an orchestrator run. -/
inductive OrchAction
  | connect
  | ensureSchemaMain
  | ensureSchemaStaging (staging : String)
  | getLatestState (dataset : String)
  | extractCall
  | parseCall
  | transformCall
  | validateCall (table : String)
  | bulkLoad (table : String) (mode : String)
  | executeMerge (staging target : String)
  | execSql (query : String)
  | updateState (dataset : String) (wm : Watermark) (status : String)
  | commitTx
  | rollbackTx
  | disconnect
  | alertSend
deriving DecidableEq, Repr

/-- The per-table configuration consulted by `_load_table`
(`ds_config.get("tables", ...).get(table_name, ds_config)`). -/
structure TableConfig where
  primary_key : Option (List String)
  validation : Option Bool
deriving DecidableEq, Repr

/-- The dataset entry of config.yaml as consumed by the orchestrator.
`validation` of a table is `none` when no rules are configured, and
otherwise carries the verdict the `DataValidator` returns on the
transformed frame of that table. -/
structure DsConfig where
  schema_name : String
  table_name : String
  load_mode : Option String
  tblCfg : String → TableConfig
  tableDefExists : String → Bool

/-- Transformer output: a single frame or named frames, each with its
emptiness flag. -/
inductive TransformOut
  | single (isEmpty : Bool)
  | multi (tables : List (String × Bool))

/-- Fault-injection oracle for the adapter held by the orchestrator. -/
structure AdapterBehavior where
  connectOk : Bool
  ensureSchemaOk : Bool
  stagingEnsureOk : Bool
  getStateOk : Bool
  bulkLoadOk : String → Bool
  mergeOk : String → Bool
  updateStateOk : Bool

/-- The environment of one orchestrator run. -/
structure OrchEnv where
  dataset : String
  dbType : String
  datasetConfigured : Bool
  schemaDefExists : Bool
  etlClassesFound : Bool
  dsConfig : DsConfig
  lastState : Watermark
  extractResult : Option Watermark
  parseOk : Bool
  transformOk : Bool
  transformOut : TransformOut
  modeOverride : Option String
  adapter : AdapterBehavior

/-- Python falsiness of `primary_keys` in `_load_table`: absent or an
empty list. -/
def pkMissing : Option (List String) → Bool
  | none => true
  | some l => l.isEmpty

/-- The effective load mode: `str(self.mode or ds_config.get("load_mode",
"overwrite"))`, where an empty override string is falsy. -/
def effectiveLoadMode (env : OrchEnv) : String :=
  let dflt := env.dsConfig.load_mode.getD "overwrite"
  match env.modeOverride with
  | some m => if m = "" then dflt else m
  | none => dflt

/-- `Orchestrator._load_table` for one non-empty frame: optional
validation, then for merge mode the primary-key and table-definition
checks followed by the try block (staging ensure_schema, bulk load into
staging in overwrite mode, execute_merge) whose finally always drops the
staging table; for other modes a single bulk load. -/
def loadTableActs (env : OrchEnv) (tableName : String) (loadMode : String) :
    List OrchAction × Option PyError :=
  let schemaName := env.dsConfig.schema_name
  let tc := env.dsConfig.tblCfg tableName
  let valActs : List OrchAction :=
    match tc.validation with
    | some _ => [OrchAction.validateCall tableName]
    | none => []
  if tc.validation = some false then
    (valActs,
      some (PyError.valueError
        ("Data validation failed for table " ++ quoted tableName)))
  else if loadMode = "merge" then
    if pkMissing tc.primary_key then
      (valActs,
        some (PyError.valueError
          ("load_mode " ++ quoted "merge" ++ " requires " ++ quoted "primary_key"
            ++ " in config for table " ++ quoted tableName ++ ".")))
    else if !(env.dsConfig.tableDefExists tableName) then
      (valActs,
        some (PyError.valueError
          ("Schema definition for table " ++ quoted tableName
            ++ " not found.")))
    else
      let staging := "staging_" ++ tableName
      let tryPart : List OrchAction × Option PyError :=
        if !env.adapter.stagingEnsureOk then
          ([OrchAction.ensureSchemaStaging staging],
            some (PyError.adapterOpError "ensure_schema"))
        else if !(env.adapter.bulkLoadOk staging) then
          ([OrchAction.ensureSchemaStaging staging,
            OrchAction.bulkLoad staging "overwrite"],
            some (PyError.adapterOpError "bulk_load"))
        else if !(env.adapter.mergeOk tableName) then
          ([OrchAction.ensureSchemaStaging staging,
            OrchAction.bulkLoad staging "overwrite",
            OrchAction.executeMerge staging tableName],
            some (PyError.adapterOpError "execute_merge"))
        else
          ([OrchAction.ensureSchemaStaging staging,
            OrchAction.bulkLoad staging "overwrite",
            OrchAction.executeMerge staging tableName], none)
      (valActs ++ tryPart.1
        ++ [OrchAction.execSql
            ("DROP TABLE IF EXISTS " ++ schemaName ++ "." ++ staging ++ ";")],
        tryPart.2)
  else
    (valActs ++ [OrchAction.bulkLoad tableName loadMode],
      if env.adapter.bulkLoadOk tableName then none
      else some (PyError.adapterOpError "bulk_load"))

/-- The loop of `_load_data` over named frames: empty frames are skipped
with a log line; the first exception aborts the loop. -/
def loadTablesActs (env : OrchEnv) (loadMode : String) :
    List (String × Bool) → List OrchAction × Option PyError
  | [] => ([], none)
  | (t, isEmpty) :: rest =>
      if isEmpty then loadTablesActs env loadMode rest
      else
        match loadTableActs env t loadMode with
        | (acts, some e) => (acts, some e)
        | (acts, none) =>
            let r := loadTablesActs env loadMode rest
            (acts ++ r.1, r.2)

/-- `Orchestrator._load_data`: dict output loads every non-empty named
frame, single-frame output loads `ds_config["table_name"]` unless the
frame is empty. -/
def loadDataActs (env : OrchEnv) : List OrchAction × Option PyError :=
  let loadMode := effectiveLoadMode env
  match env.transformOut with
  | TransformOut.multi tables => loadTablesActs env loadMode tables
  | TransformOut.single isEmpty =>
      if isEmpty then ([], none)
      else loadTableActs env env.dsConfig.table_name loadMode

/-- The try-suite of `Orchestrator.run` once `self.adapter` is assigned:
connect, target ensure_schema, state read, ETL class lookup, extract,
the unchanged-watermark short circuit (which sets SUCCESS, writes state,
commits and returns), otherwise parse, transform and `_load_data`.
Returns the actions, the exception if one escapes, the value of the
`status` variable when the suite is left, and `new_state`. -/
def runBodyAfterAdapter (env : OrchEnv) :
    List OrchAction × Option PyError × String × Watermark :=
  if !env.adapter.connectOk then
    ([OrchAction.connect], some PyError.connectionError, "FAILED", [])
  else if !env.schemaDefExists then
    ([OrchAction.connect],
      some (PyError.valueError
        ("Schema for dataset " ++ quoted env.dataset
          ++ " not found in schemas.py.")), "FAILED", [])
  else if !env.adapter.ensureSchemaOk then
    ([OrchAction.connect, OrchAction.ensureSchemaMain],
      some (PyError.adapterOpError "ensure_schema"), "FAILED", [])
  else if !env.adapter.getStateOk then
    ([OrchAction.connect, OrchAction.ensureSchemaMain,
      OrchAction.getLatestState env.dataset],
      some (PyError.adapterOpError "get_latest_state"), "FAILED", [])
  else if !env.etlClassesFound then
    ([OrchAction.connect, OrchAction.ensureSchemaMain,
      OrchAction.getLatestState env.dataset],
      some (PyError.valueError
        ("One or more ETL classes for " ++ quoted env.dataset
          ++ " could not be found.")), "FAILED", [])
  else
    let pre := [OrchAction.connect, OrchAction.ensureSchemaMain,
      OrchAction.getLatestState env.dataset, OrchAction.extractCall]
    match env.extractResult with
    | none => (pre, some PyError.extractError, "FAILED", [])
    | some nw =>
        if nw = env.lastState ∧ env.lastState ≠ [] then
          let upd := pre ++ [OrchAction.updateState env.dataset nw "SUCCESS"]
          if !env.adapter.updateStateOk then
            (upd, some (PyError.adapterOpError "update_state"), "SUCCESS", nw)
          else (upd ++ [OrchAction.commitTx], none, "SUCCESS", nw)
        else if !env.parseOk then
          (pre ++ [OrchAction.parseCall], some PyError.parseError, "FAILED",
            nw)
        else if !env.transformOk then
          (pre ++ [OrchAction.parseCall, OrchAction.transformCall],
            some PyError.transformError, "FAILED", nw)
        else
          let r := loadDataActs env
          (pre ++ [OrchAction.parseCall, OrchAction.transformCall] ++ r.1,
            r.2,
            if r.2.isNone then "SUCCESS" else "FAILED", nw)

/-- The finally-suite of `Orchestrator.run` when `self.adapter` is set:
for a SUCCESS status it writes state and commits before disconnecting
(an exception raised by that write escapes the finally block and skips
the disconnect); otherwise it only disconnects. -/
def runFinallyActs (env : OrchEnv) (status : String) (nw : Watermark) :
    List OrchAction × Option PyError :=
  if status = "SUCCESS" then
    if env.adapter.updateStateOk then
      ([OrchAction.updateState env.dataset nw "SUCCESS", OrchAction.commitTx,
        OrchAction.disconnect], none)
    else
      ([OrchAction.updateState env.dataset nw "SUCCESS"],
        some (PyError.adapterOpError "update_state"))
  else ([OrchAction.disconnect], none)

/-- The result of one orchestrator run: its action trace and the
exception propagated to the caller, if any. -/
structure RunResult where
  trace : List OrchAction
  error : Option PyError
deriving DecidableEq, Repr

/-- `Orchestrator.run`: the dataset-configured check runs before the
adapter is constructed; when the try-suite raises, the except-suite
alerts, rolls back if an adapter exists, and re-raises; the
finally-suite runs last when an adapter exists. -/
def Orchestrator.run (env : OrchEnv) : RunResult :=
  if !env.datasetConfigured then
    ⟨[OrchAction.alertSend],
      some (PyError.valueError
        ("Dataset " ++ quoted env.dataset ++ " not found in config.yaml."))⟩
  else
    match get_db_adapter env.dbType with
    | Except.error e => ⟨[OrchAction.alertSend], some e⟩
    | Except.ok _ =>
        let body := runBodyAfterAdapter env
        let handled : List OrchAction :=
          match body.2.1 with
          | none => body.1
          | some _ => body.1 ++ [OrchAction.alertSend, OrchAction.rollbackTx]
        let fin := runFinallyActs env body.2.2.1 body.2.2.2
        ⟨handled ++ fin.1,
          match fin.2 with
          | some f => some f
          | none => body.2.1⟩

/-- Whether an action is a state write. -/
def isStateWrite : OrchAction → Bool
  | OrchAction.updateState _ _ _ => true
  | _ => false

/-- Whether an action is a bulk load. -/
def isBulkLoad : OrchAction → Bool
  | OrchAction.bulkLoad _ _ => true
  | _ => false

/-- Whether an action is an execute_merge call. -/
def isMergeCall : OrchAction → Bool
  | OrchAction.executeMerge _ _ => true
  | _ => false

/-- Whether an action creates a staging table. -/
def isStagingCreate : OrchAction → Bool
  | OrchAction.ensureSchemaStaging _ => true
  | _ => false

/-! ## Lemmas about the staged-merge semantics -/

section MergeLemmas

variable {K V : Type} [DecidableEq K]

omit [DecidableEq K] in
/-- Key membership unfolded to row membership. -/
lemma mem_keysOf {l : List (K × V)} {k : K} :
    k ∈ keysOf l ↔ ∃ q ∈ l, q.1 = k := by
  unfold keysOf
  exact List.mem_map

/-- A key matches some row of a table exactly when it is a key of it. -/
lemma any_key_eq (l : List (K × V)) (k : K) :
    (l.any (fun s => decide (s.1 = k)) = true) ↔ k ∈ keysOf l := by
  rw [List.any_eq_true, mem_keysOf]
  constructor
  · rintro ⟨x, hx, hxe⟩
    exact ⟨x, hx, of_decide_eq_true hxe⟩
  · rintro ⟨x, hx, hxe⟩
    exact ⟨x, hx, decide_eq_true hxe⟩

/-- A key-based find on a table whose keys avoid `k` comes up empty. -/
lemma find?_eq_none_of_not_key (l : List (K × V)) (k : K)
    (h : k ∉ keysOf l) :
    l.find? (fun s => decide (s.1 = k)) = none := by
  refine List.find?_eq_none.mpr (fun x hx => ?_)
  simp only [decide_eq_true_eq]
  intro he
  exact h (mem_keysOf.mpr ⟨x, hx, he⟩)

/-- On a table with distinct keys, the key-based find of the key of a
member returns that member. -/
lemma find?_key_of_mem (l : List (K × V)) (h : (keysOf l).Nodup)
    (q : K × V) (hq : q ∈ l) :
    l.find? (fun s => decide (s.1 = q.1)) = some q := by
  induction l with
  | nil => cases hq
  | cons a rest ih =>
      have hkeys : a.1 ∉ keysOf rest ∧ (keysOf rest).Nodup := by
        rw [keysOf, List.map_cons, List.nodup_cons] at h
        exact h
      rcases List.mem_cons.mp hq with rfl | hq'
      · exact List.find?_cons_of_pos (p := fun s => decide (s.1 = q.1))
          (a := q) rest (by simp)
      · have ha : ¬ a.1 = q.1 := fun he =>
          hkeys.1 (mem_keysOf.mpr ⟨q, hq', he.symm⟩)
        rw [List.find?_cons_of_neg (p := fun s => decide (s.1 = q.1)) rest
          (by simpa using ha)]
        exact ih hkeys.2 hq'

/-- The head staging row wins the match when its key is that of the
target row. -/
lemma mergeRowUpdate_cons_hit (rest : List (K × V)) (s t : K × V)
    (h : s.1 = t.1) : mergeRowUpdate (s :: rest) t = (t.1, s.2) := by
  unfold mergeRowUpdate
  rw [List.find?_cons_of_pos (p := fun q => decide (q.1 = t.1)) rest
    (by simpa using h)]

/-- A staging row with a different key defers the match to the rest. -/
lemma mergeRowUpdate_cons_miss (rest : List (K × V)) (s t : K × V)
    (h : ¬ s.1 = t.1) : mergeRowUpdate (s :: rest) t = mergeRowUpdate rest t := by
  unfold mergeRowUpdate
  rw [List.find?_cons_of_neg (p := fun q => decide (q.1 = t.1)) rest
    (by simpa using h)]

/-- Merging against an empty staging table keeps a row unchanged. -/
lemma mergeRowUpdate_nil (t : K × V) : mergeRowUpdate [] t = t := rfl

/-- Merging against an empty staging table keeps the target unchanged. -/
lemma map_mergeRowUpdate_nil (target : List (K × V)) :
    target.map (mergeRowUpdate []) = target := by
  induction target with
  | nil => rfl
  | cons a rest ih => simp [mergeRowUpdate_nil, ih]

/-- A target row whose key the staging table does not carry is kept. -/
lemma mergeRowUpdate_absent (staging : List (K × V)) (t : K × V)
    (h : t.1 ∉ keysOf staging) : mergeRowUpdate staging t = t := by
  unfold mergeRowUpdate
  rw [find?_eq_none_of_not_key staging t.1 h]

/-- The ON CONFLICT update of one row keeps its key. -/
lemma upsertKeep_key (s t : K × V) :
    ((if t.1 = s.1 then (t.1, s.2) else t) : K × V).1 = t.1 := by
  by_cases h : t.1 = s.1 <;> simp [h]

/-- Updating rows in place does not change which keys match a probe. -/
lemma any_key_upsertMap (target : List (K × V)) (s : K × V) (k : K) :
    ((target.map (fun t => if t.1 = s.1 then (t.1, s.2) else t)).any
      (fun t => decide (t.1 = k)))
    = target.any (fun t => decide (t.1 = k)) := by
  induction target with
  | nil => rfl
  | cons a rest ih =>
      by_cases h : a.1 = s.1 <;> simp [h, ih]

/-- Processing the head staging row first and merging the rest is the
same as merging the whole staging table, provided the head key does not
recur in the rest. -/
lemma rs_merge_cons (target rest : List (K × V)) (s : K × V)
    (hs : s.1 ∉ keysOf rest) :
    rsExecuteMerge target (s :: rest)
      = rsExecuteMerge (upsertRow target s) rest := by
  unfold rsExecuteMerge upsertRow
  by_cases hin : target.any (fun t => decide (t.1 = s.1)) = true
  · rw [if_pos hin, List.map_map]
    congr 1
    · refine List.map_congr_left (fun t ht => ?_)
      by_cases hts : t.1 = s.1
      · rw [mergeRowUpdate_cons_hit rest s t hts.symm]
        have habs : ((t.1, s.2) : K × V).1 ∉ keysOf rest := by
          simpa [hts] using hs
        simp only [Function.comp_apply, if_pos hts]
        exact (mergeRowUpdate_absent rest (t.1, s.2) habs).symm
      · rw [mergeRowUpdate_cons_miss rest s t (fun he => hts he.symm)]
        simp only [Function.comp_apply, if_neg hts]
    · rw [List.filter_cons_of_neg
        (p := fun q : K × V => !target.any (fun t => decide (t.1 = q.1)))
        (by simp [hin])]
      refine List.filter_congr (fun q hq => ?_)
      rw [any_key_upsertMap]
  · rw [if_neg hin, List.map_append]
    have hmapone : List.map (mergeRowUpdate rest) [s] = [s] := by
      simp only [List.map_cons, List.map_nil]
      rw [mergeRowUpdate_absent rest s hs]
    rw [hmapone, List.append_assoc]
    congr 1
    · refine List.map_congr_left (fun t ht => ?_)
      have hts : ¬ s.1 = t.1 := by
        intro he
        exact hin (List.any_eq_true.mpr ⟨t, ht, by simp [he.symm]⟩)
      exact mergeRowUpdate_cons_miss rest s t hts
    · rw [List.filter_cons_of_pos
        (p := fun q : K × V => !target.any (fun t => decide (t.1 = q.1)))
        (by simp [hin])]
      rw [List.singleton_append]
      congr 1
      refine List.filter_congr (fun q hq => ?_)
      have hsq : ¬ s.1 = q.1 := fun he =>
        hs (mem_keysOf.mpr ⟨q, hq, he.symm⟩)
      rw [List.any_append]
      simp [hsq]

/-- The PostgreSQL row-at-a-time upsert and the Redshift MERGE agree on
every pair of tables whose staging keys are distinct. -/
lemma pg_rs_merge_agree (target staging : List (K × V))
    (h : (keysOf staging).Nodup) :
    pgExecuteMerge target staging = rsExecuteMerge target staging := by
  induction staging generalizing target with
  | nil =>
      unfold pgExecuteMerge rsExecuteMerge
      simp [map_mergeRowUpdate_nil]
  | cons s rest ih =>
      have hkeys : s.1 ∉ keysOf rest ∧ (keysOf rest).Nodup := by
        rw [keysOf, List.map_cons, List.nodup_cons] at h
        exact h
      rw [rs_merge_cons target rest s hkeys.1]
      show List.foldl upsertRow (upsertRow target s) rest = _
      exact ih (upsertRow target s) hkeys.2

/-- Row membership after a Redshift MERGE: the staging rows plus the
target rows whose key the staging table does not carry. -/
lemma rs_merge_mem (target staging : List (K × V))
    (h : (keysOf staging).Nodup) (r : K × V) :
    r ∈ rsExecuteMerge target staging ↔
      r ∈ staging ∨ (r ∈ target ∧ r.1 ∉ keysOf staging) := by
  unfold rsExecuteMerge
  rw [List.mem_append]
  constructor
  · rintro (hmap | hfil)
    · rw [List.mem_map] at hmap
      obtain ⟨t, ht, heq⟩ := hmap
      rcases hf : staging.find? (fun s => decide (s.1 = t.1)) with _ | s
      · rw [mergeRowUpdate, hf] at heq
        subst heq
        refine Or.inr ⟨ht, fun hk => ?_⟩
        obtain ⟨q, hq, hqk⟩ := mem_keysOf.mp hk
        have := List.find?_eq_none.mp hf q hq
        simp [hqk] at this
      · rw [mergeRowUpdate, hf] at heq
        have hsk : s.1 = t.1 := by
          simpa using List.find?_some hf
        have hsm : s ∈ staging := List.mem_of_find?_eq_some hf
        refine Or.inl ?_
        have hr : r = s := by
          rw [← heq, ← hsk]
        rw [hr]
        exact hsm
    · exact Or.inl (List.mem_of_mem_filter hfil)
  · rintro (hst | ⟨htg, hkey⟩)
    · by_cases hk : r.1 ∈ keysOf target
      · obtain ⟨t, ht, htk⟩ := mem_keysOf.mp hk
        refine Or.inl (List.mem_map.mpr ⟨t, ht, ?_⟩)
        unfold mergeRowUpdate
        rw [htk, find?_key_of_mem staging h r hst]
      · refine Or.inr (List.mem_filter.mpr ⟨hst, ?_⟩)
        simp only [Bool.not_eq_eq_eq_not, Bool.not_true, ← Bool.not_eq_true]
        intro hany
        exact hk ((any_key_eq target r.1).mp hany)
    · refine Or.inl (List.mem_map.mpr ⟨r, htg, ?_⟩)
      exact mergeRowUpdate_absent staging r hkey

/-- Row membership in the spec-side merge result. -/
lemma mergeSpecRows_mem (target staging : List (K × V)) (r : K × V) :
    r ∈ mergeSpecRows target staging ↔
      r ∈ staging ∨ (r ∈ target ∧ r.1 ∉ keysOf staging) := by
  unfold mergeSpecRows
  rw [List.mem_append, List.mem_filter]
  constructor
  · rintro (⟨htg, hp⟩ | hst)
    · refine Or.inr ⟨htg, fun hk => ?_⟩
      rw [Bool.not_eq_eq_eq_not, Bool.not_true, ← Bool.not_eq_true] at hp
      exact hp ((any_key_eq staging r.1).mpr hk)
    · exact Or.inl hst
  · rintro (hst | ⟨htg, hkey⟩)
    · exact Or.inr hst
    · refine Or.inl ⟨htg, ?_⟩
      simp only [Bool.not_eq_eq_eq_not, Bool.not_true, ← Bool.not_eq_true]
      intro hany
      exact hkey ((any_key_eq staging r.1).mp hany)

end MergeLemmas

/-! ## Lemmas about the orchestrator traces -/

/-- `_load_table` never writes run state itself. -/
lemma loadTableActs_no_state_write (env : OrchEnv) (t m : String) :
    (loadTableActs env t m).1.countP isStateWrite = 0 := by
  unfold loadTableActs
  rcases hv : (env.dsConfig.tblCfg t).validation with _ | b <;>
    simp only [hv] <;>
    split_ifs <;>
    simp [isStateWrite, List.countP_cons, List.countP_append]

/-- The `_load_data` loop never writes run state itself. -/
lemma loadTablesActs_no_state_write (env : OrchEnv) (m : String)
    (tables : List (String × Bool)) :
    (loadTablesActs env m tables).1.countP isStateWrite = 0 := by
  induction tables with
  | nil => rfl
  | cons p rest ih =>
      rcases p with ⟨t, isEmpty⟩
      unfold loadTablesActs
      rcases isEmpty with _ | _
      · rcases hl : loadTableActs env t m with ⟨acts, err⟩
        have hacts : acts.countP isStateWrite = 0 := by
          have := loadTableActs_no_state_write env t m
          rw [hl] at this
          exact this
        rcases err with _ | e
        · simpa [List.countP_append, hacts] using ih
        · simpa using hacts
      · exact ih

/-- `_load_data` never writes run state itself. -/
lemma loadDataActs_no_state_write (env : OrchEnv) :
    (loadDataActs env).1.countP isStateWrite = 0 := by
  unfold loadDataActs
  rcases env.transformOut with isEmpty | tables
  · rcases isEmpty with _ | _
    · exact loadTableActs_no_state_write env env.dsConfig.table_name
        (effectiveLoadMode env)
    · rfl
  · exact loadTablesActs_no_state_write env (effectiveLoadMode env) tables

/-- The try-suite of `run` either finishes cleanly with status SUCCESS,
or raises with status FAILED having written no state (given that the
short-circuiting state write does not itself raise). -/
lemma runBody_state_writes (env : OrchEnv)
    (hupd : env.adapter.updateStateOk = true) :
    ((runBodyAfterAdapter env).2.1 = none
      ∧ (runBodyAfterAdapter env).2.2.1 = "SUCCESS")
    ∨ ((runBodyAfterAdapter env).2.1.isSome = true
      ∧ (runBodyAfterAdapter env).2.2.1 = "FAILED"
      ∧ (runBodyAfterAdapter env).1.countP isStateWrite = 0) := by
  unfold runBodyAfterAdapter
  by_cases h1 : env.adapter.connectOk = true
  case neg =>
    simp only [Bool.not_eq_true] at h1
    simp [h1, isStateWrite]
  by_cases h2 : env.schemaDefExists = true
  case neg =>
    simp only [Bool.not_eq_true] at h2
    simp [h1, h2, isStateWrite]
  by_cases h3 : env.adapter.ensureSchemaOk = true
  case neg =>
    simp only [Bool.not_eq_true] at h3
    simp [h1, h2, h3, isStateWrite]
  by_cases h4 : env.adapter.getStateOk = true
  case neg =>
    simp only [Bool.not_eq_true] at h4
    simp [h1, h2, h3, h4, isStateWrite]
  by_cases h5 : env.etlClassesFound = true
  case neg =>
    simp only [Bool.not_eq_true] at h5
    simp [h1, h2, h3, h4, h5, isStateWrite]
  rcases hex : env.extractResult with _ | nw
  · simp [h1, h2, h3, h4, h5, hex, isStateWrite]
  by_cases h6 : nw = env.lastState ∧ env.lastState ≠ []
  · simp [h1, h2, h3, h4, h5, hex, h6, hupd]
  by_cases h7 : env.parseOk = true
  case neg =>
    simp only [Bool.not_eq_true] at h7
    simp [h1, h2, h3, h4, h5, hex, h6, h7, isStateWrite]
  by_cases h8 : env.transformOk = true
  case neg =>
    simp only [Bool.not_eq_true] at h8
    simp [h1, h2, h3, h4, h5, hex, h6, h7, h8, isStateWrite]
  rcases hld : (loadDataActs env) with ⟨acts, err⟩
  have hacts : acts.countP isStateWrite = 0 := by
    have := loadDataActs_no_state_write env
    rw [hld] at this
    exact this
  rcases err with _ | e
  · simp [h1, h2, h3, h4, h5, hex, h6, h7, h8, hld]
  · simp [h1, h2, h3, h4, h5, hex, h6, h7, h8, hld, isStateWrite,
      List.countP_append, hacts]

/-- The try-suite of `run` on the unchanged-watermark path: it stops
after the extract call, writes SUCCESS state and commits. -/
lemma runBody_delta (env : OrchEnv)
    (hconn : env.adapter.connectOk = true)
    (hschema : env.schemaDefExists = true)
    (hens : env.adapter.ensureSchemaOk = true)
    (hget : env.adapter.getStateOk = true)
    (hcls : env.etlClassesFound = true)
    (hupd : env.adapter.updateStateOk = true)
    (hex : env.extractResult = some env.lastState)
    (hne : env.lastState ≠ []) :
    runBodyAfterAdapter env =
      ([OrchAction.connect, OrchAction.ensureSchemaMain,
        OrchAction.getLatestState env.dataset, OrchAction.extractCall,
        OrchAction.updateState env.dataset env.lastState "SUCCESS",
        OrchAction.commitTx], none, "SUCCESS", env.lastState) := by
  simp [runBodyAfterAdapter, hconn, hschema, hens, hget, hcls, hupd, hex, hne]

/-- The try-suite of `run` when extraction yields a changed watermark and
parse and transform succeed: the trace continues into `_load_data`, and
the final status is SUCCESS exactly when no load error occurred. -/
lemma runBody_load_stage (env : OrchEnv) (nw : Watermark)
    (hconn : env.adapter.connectOk = true)
    (hschema : env.schemaDefExists = true)
    (hens : env.adapter.ensureSchemaOk = true)
    (hget : env.adapter.getStateOk = true)
    (hcls : env.etlClassesFound = true)
    (hex : env.extractResult = some nw)
    (hdelta : ¬(nw = env.lastState ∧ env.lastState ≠ []))
    (hparse : env.parseOk = true)
    (htrans : env.transformOk = true) :
    runBodyAfterAdapter env =
      ([OrchAction.connect, OrchAction.ensureSchemaMain,
        OrchAction.getLatestState env.dataset, OrchAction.extractCall,
        OrchAction.parseCall, OrchAction.transformCall]
          ++ (loadDataActs env).1,
        (loadDataActs env).2,
        if (loadDataActs env).2.isNone then "SUCCESS" else "FAILED", nw) := by
  simp [runBodyAfterAdapter, hconn, hschema, hens, hget, hcls, hex, hdelta,
    hparse, htrans]

/-- The merge-mode configuration error of `_load_table` when no primary
key is configured: the call raises a ValueError having issued no staging
creation, no bulk load and no merge. -/
lemma loadTableActs_merge_no_pk (env : OrchEnv) (t : String)
    (hpk : pkMissing ((env.dsConfig.tblCfg t).primary_key) = true)
    (hval : (env.dsConfig.tblCfg t).validation ≠ some false) :
    (∃ msg, (loadTableActs env t "merge").2 = some (PyError.valueError msg))
    ∧ (loadTableActs env t "merge").1.countP isBulkLoad = 0
    ∧ (loadTableActs env t "merge").1.countP isMergeCall = 0
    ∧ (loadTableActs env t "merge").1.countP isStagingCreate = 0 := by
  unfold loadTableActs
  rcases hv : (env.dsConfig.tblCfg t).validation with _ | b
  · simp [hv, hpk, isBulkLoad, isMergeCall, isStagingCreate]
  · rcases b with _ | _
    · exact absurd hv hval
    · simp [hv, hpk, isBulkLoad, isMergeCall, isStagingCreate]

/-! ## Concrete run environments used by counterexamples and witnesses -/

/-- An adapter oracle on which every operation succeeds. -/
def allOkAdapter : AdapterBehavior :=
  ⟨true, true, true, true, fun _ => true, fun _ => true, true⟩

/-- An adapter oracle whose execute_merge raises. -/
def mergeFailAdapter : AdapterBehavior :=
  ⟨true, true, true, true, fun _ => true, fun _ => false, true⟩

/-- A dataset configuration loading one table in overwrite mode. -/
def overwriteCfg : DsConfig :=
  ⟨"public", "pmda_approvals", some "overwrite",
    fun _ => ⟨some ["id"], none⟩, fun _ => true⟩

/-- A dataset configuration in merge mode with a primary key. -/
def mergeCfg : DsConfig :=
  ⟨"public", "pmda_approvals", some "merge",
    fun _ => ⟨some ["id"], none⟩, fun _ => true⟩

/-- A dataset configuration in merge mode with no primary key. -/
def mergeNoPkCfg : DsConfig :=
  ⟨"public", "pmda_approvals", some "merge",
    fun _ => ⟨none, none⟩, fun _ => true⟩

/-- A run in which the extract stage raises after a successful connect. -/
def envFailingExtract : OrchEnv :=
  ⟨"jader", "redshift", true, true, true, overwriteCfg, [("etag", "x")],
    none, true, true, TransformOut.single false, none, allOkAdapter⟩

/-- A run whose upstream resource is unchanged: the extractor returns
the stored (non-empty) watermark again. -/
def envUnchangedUpstream : OrchEnv :=
  ⟨"jader", "redshift", true, true, true, overwriteCfg, [("etag", "x")],
    some [("etag", "x")], true, true, TransformOut.single false, none,
    allOkAdapter⟩

/-- A merge-mode run against a table with no configured primary key. -/
def envMergeMissingPk : OrchEnv :=
  ⟨"jader", "redshift", true, true, true, mergeNoPkCfg, [("etag", "x")],
    some [("etag", "y")], true, true, TransformOut.single false, none,
    allOkAdapter⟩

/-- A merge-mode run whose execute_merge raises. -/
def envMergeFailing : OrchEnv :=
  ⟨"jader", "redshift", true, true, true, mergeCfg, [("etag", "x")],
    some [("etag", "y")], true, true, TransformOut.single false, none,
    mergeFailAdapter⟩

/-- A run configured with the postgres backend. -/
def envPostgresBackend : OrchEnv :=
  ⟨"jader", "postgres", true, true, true, overwriteCfg, [("etag", "x")],
    some [("etag", "y")], true, true, TransformOut.single false, none,
    allOkAdapter⟩

/-- A stored state row recording an earlier successful run. -/
def priorSuccessRow : StateRow :=
  ⟨"jader", 1, some 1, "SUCCESS", "wm0", "0.1.0"⟩

/-! ## Claim theorems -/

/-- C1 counterexample: the claim says the run state (with status FAILED)
is always written before disconnecting, even when a pipeline stage
raises. In the concrete run whose extract stage raises, the orchestrator
alerts, rolls back, disconnects and re-raises, but its trace contains no
state write at all: state recording is skipped on the failure path. -/
theorem run_failed_extract_writes_no_state :
    (Orchestrator.run envFailingExtract).error = some PyError.extractError
    ∧ (Orchestrator.run envFailingExtract).trace.countP isStateWrite = 0
    ∧ OrchAction.disconnect ∈ (Orchestrator.run envFailingExtract).trace := by
  decide

/-- C1 amended: in every run that constructs its adapter (and whose
state-store write does not itself raise), a run that ends without an
exception writes state with status SUCCESS and commits before
disconnecting, while a run that ends in an exception alerts, rolls back
and disconnects without writing any run state. -/
theorem run_state_write_discipline (env : OrchEnv)
    (hconf : env.datasetConfigured = true)
    (hok : ∃ a, get_db_adapter env.dbType = Except.ok a)
    (hupd : env.adapter.updateStateOk = true) :
    ((Orchestrator.run env).error = none →
      (∃ wm, OrchAction.updateState env.dataset wm "SUCCESS"
        ∈ (Orchestrator.run env).trace)
      ∧ OrchAction.commitTx ∈ (Orchestrator.run env).trace
      ∧ OrchAction.disconnect ∈ (Orchestrator.run env).trace)
    ∧ ((Orchestrator.run env).error.isSome = true →
      (Orchestrator.run env).trace.countP isStateWrite = 0
      ∧ OrchAction.alertSend ∈ (Orchestrator.run env).trace
      ∧ OrchAction.rollbackTx ∈ (Orchestrator.run env).trace
      ∧ OrchAction.disconnect ∈ (Orchestrator.run env).trace) := by
  obtain ⟨a, ha⟩ := hok
  rcases runBody_state_writes env hupd with ⟨he, hs⟩ | ⟨he, hs, hc⟩
  · have hrun : Orchestrator.run env =
        ⟨(runBodyAfterAdapter env).1
          ++ [OrchAction.updateState env.dataset
                (runBodyAfterAdapter env).2.2.2 "SUCCESS",
              OrchAction.commitTx, OrchAction.disconnect], none⟩ := by
      simp [Orchestrator.run, hconf, ha, he, hs, runFinallyActs, hupd]
    rw [hrun]
    constructor
    · intro _
      exact ⟨⟨(runBodyAfterAdapter env).2.2.2, by simp⟩, by simp, by simp⟩
    · intro hfalse
      simp at hfalse
  · obtain ⟨e, he'⟩ := Option.isSome_iff_exists.mp he
    have hrun : Orchestrator.run env =
        ⟨(runBodyAfterAdapter env).1
          ++ [OrchAction.alertSend, OrchAction.rollbackTx,
              OrchAction.disconnect], some e⟩ := by
      simp [Orchestrator.run, hconf, ha, he', hs, runFinallyActs]
    rw [hrun]
    constructor
    · intro hfalse
      simp at hfalse
    · intro _
      refine ⟨?_, by simp, by simp, by simp⟩
      simp [List.countP_append, hc, isStateWrite]

/-- Witness for the amended C1 at a concrete run with its adapter
constructed and a state store that accepts writes. -/
theorem run_state_write_discipline_witness :
    ((Orchestrator.run envUnchangedUpstream).error = none →
      (∃ wm, OrchAction.updateState "jader" wm "SUCCESS"
        ∈ (Orchestrator.run envUnchangedUpstream).trace)
      ∧ OrchAction.commitTx ∈ (Orchestrator.run envUnchangedUpstream).trace
      ∧ OrchAction.disconnect ∈ (Orchestrator.run envUnchangedUpstream).trace)
    ∧ ((Orchestrator.run envUnchangedUpstream).error.isSome = true →
      (Orchestrator.run envUnchangedUpstream).trace.countP isStateWrite = 0
      ∧ OrchAction.alertSend ∈ (Orchestrator.run envUnchangedUpstream).trace
      ∧ OrchAction.rollbackTx ∈ (Orchestrator.run envUnchangedUpstream).trace
      ∧ OrchAction.disconnect
          ∈ (Orchestrator.run envUnchangedUpstream).trace) :=
  run_state_write_discipline envUnchangedUpstream rfl ⟨"redshift", rfl⟩ rfl

/-- C2 counterexample: the claim says a non-SUCCESS update_state leaves
the stored last_successful_run_ts unchanged identically for PostgreSQL
and Redshift. On a dataset with a prior successful run, the Redshift
DELETE-then-INSERT of the Redshift adapter replaces the stored value with NULL. -/
theorem redshift_failed_update_clobbers_last_success :
    priorSuccessRow.last_successful_run_ts = some 1
    ∧ (rsUpdateState (some priorSuccessRow) "jader" "wm1" "FAILED" 2
        "0.1.0").last_successful_run_ts = none := by
  decide

/-- C2 amended: on a dataset that already has a state row, an
update_state with a non-SUCCESS status preserves the stored
last_successful_run_ts in the PostgreSQL adapter, but the Redshift
adapter deletes the row and re-inserts it with a NULL
last_successful_run_ts, losing the prior value; both set the status. -/
theorem update_state_non_success (old : StateRow) (ds wm status : String)
    (now : Nat) (ver : String) (h : status ≠ "SUCCESS") :
    (pgUpdateState (some old) ds wm status now ver).last_successful_run_ts
      = old.last_successful_run_ts
    ∧ (rsUpdateState (some old) ds wm status now ver).last_successful_run_ts
      = none
    ∧ (pgUpdateState (some old) ds wm status now ver).status = status
    ∧ (rsUpdateState (some old) ds wm status now ver).status = status := by
  simp [pgUpdateState, rsUpdateState, h]

/-- Witness for the amended C2 at a concrete FAILED update. -/
theorem update_state_non_success_witness :
    (pgUpdateState (some priorSuccessRow) "jader" "wm1" "FAILED" 2
      "0.1.0").last_successful_run_ts = priorSuccessRow.last_successful_run_ts
    ∧ (rsUpdateState (some priorSuccessRow) "jader" "wm1" "FAILED" 2
      "0.1.0").last_successful_run_ts = none
    ∧ (pgUpdateState (some priorSuccessRow) "jader" "wm1" "FAILED" 2
      "0.1.0").status = "FAILED"
    ∧ (rsUpdateState (some priorSuccessRow) "jader" "wm1" "FAILED" 2
      "0.1.0").status = "FAILED" :=
  update_state_non_success priorSuccessRow "jader" "wm1" "FAILED" 2 "0.1.0"
    (by decide)

/-- C3: PostgreSQLAdapter leaves the abstract methods disconnect,
commit, rollback, get_all_states and execute_sql of LoaderInterface
unimplemented, so instantiating it raises TypeError, get_db_adapter
raises for the postgres type on every call, and a run configured with
the postgres backend stops before connecting, extracting or loading. -/
theorem postgres_adapter_unconstructible (env : OrchEnv)
    (h : env.dbType = "postgres") :
    missingAbstractMethods postgresAdapterMethods
      = ["disconnect", "commit", "rollback", "get_all_states", "execute_sql"]
    ∧ abcInstantiationRaises postgresAdapterMethods = true
    ∧ get_db_adapter "postgres" = Except.error PyError.typeError
    ∧ (Orchestrator.run env).error.isSome = true
    ∧ (Orchestrator.run env).trace = [OrchAction.alertSend] := by
  have hga0 : get_db_adapter "postgres" = Except.error PyError.typeError := rfl
  have hga : get_db_adapter env.dbType = Except.error PyError.typeError := by
    rw [h]
    exact hga0
  by_cases hc : env.datasetConfigured = true
  · refine ⟨by decide, by decide, hga0, ?_, ?_⟩ <;>
      simp [Orchestrator.run, hc, hga]
  · simp only [Bool.not_eq_true] at hc
    refine ⟨by decide, by decide, hga0, ?_, ?_⟩ <;>
      simp [Orchestrator.run, hc]

/-- Witness for C3 at a concrete postgres-backend run. -/
theorem postgres_adapter_unconstructible_witness :
    missingAbstractMethods postgresAdapterMethods
      = ["disconnect", "commit", "rollback", "get_all_states", "execute_sql"]
    ∧ abcInstantiationRaises postgresAdapterMethods = true
    ∧ get_db_adapter "postgres" = Except.error PyError.typeError
    ∧ (Orchestrator.run envPostgresBackend).error.isSome = true
    ∧ (Orchestrator.run envPostgresBackend).trace = [OrchAction.alertSend] :=
  postgres_adapter_unconstructible envPostgresBackend rfl

/-- C4: when the extractor returns a watermark equal to the stored
non-empty one, the run performs no bulk_load and no execute_merge,
writes state with status SUCCESS (and update_state always refreshes
last_run_ts in both SQL adapters), commits, and ends cleanly. -/
theorem delta_short_circuit_no_load (env : OrchEnv)
    (hconf : env.datasetConfigured = true)
    (hok : ∃ a, get_db_adapter env.dbType = Except.ok a)
    (hconn : env.adapter.connectOk = true)
    (hschema : env.schemaDefExists = true)
    (hens : env.adapter.ensureSchemaOk = true)
    (hget : env.adapter.getStateOk = true)
    (hcls : env.etlClassesFound = true)
    (hupd : env.adapter.updateStateOk = true)
    (hex : env.extractResult = some env.lastState)
    (hne : env.lastState ≠ []) :
    (Orchestrator.run env).error = none
    ∧ (Orchestrator.run env).trace.countP isBulkLoad = 0
    ∧ (Orchestrator.run env).trace.countP isMergeCall = 0
    ∧ OrchAction.updateState env.dataset env.lastState "SUCCESS"
        ∈ (Orchestrator.run env).trace
    ∧ OrchAction.commitTx ∈ (Orchestrator.run env).trace
    ∧ (∀ (prior : Option StateRow) (ds wm st : String) (now : Nat)
        (ver : String),
        (pgUpdateState prior ds wm st now ver).last_run_ts = now
        ∧ (rsUpdateState prior ds wm st now ver).last_run_ts = now) := by
  obtain ⟨a, ha⟩ := hok
  have hbody := runBody_delta env hconn hschema hens hget hcls hupd hex hne
  have hrun : Orchestrator.run env =
      ⟨[OrchAction.connect, OrchAction.ensureSchemaMain,
        OrchAction.getLatestState env.dataset, OrchAction.extractCall,
        OrchAction.updateState env.dataset env.lastState "SUCCESS",
        OrchAction.commitTx,
        OrchAction.updateState env.dataset env.lastState "SUCCESS",
        OrchAction.commitTx, OrchAction.disconnect], none⟩ := by
    simp [Orchestrator.run, hconf, ha, hbody, runFinallyActs, hupd]
  rw [hrun]
  refine ⟨rfl, by simp [isBulkLoad, List.countP_cons],
    by simp [isMergeCall, List.countP_cons], by simp, by simp, ?_⟩
  intro prior ds wm st now ver
  rcases prior with _ | old <;> simp [pgUpdateState, rsUpdateState]

/-- Witness for C4 at a concrete unchanged-upstream run. -/
theorem delta_short_circuit_no_load_witness :
    (Orchestrator.run envUnchangedUpstream).error = none
    ∧ (Orchestrator.run envUnchangedUpstream).trace.countP isBulkLoad = 0
    ∧ (Orchestrator.run envUnchangedUpstream).trace.countP isMergeCall = 0
    ∧ OrchAction.updateState "jader" [("etag", "x")] "SUCCESS"
        ∈ (Orchestrator.run envUnchangedUpstream).trace
    ∧ OrchAction.commitTx ∈ (Orchestrator.run envUnchangedUpstream).trace
    ∧ (∀ (prior : Option StateRow) (ds wm st : String) (now : Nat)
        (ver : String),
        (pgUpdateState prior ds wm st now ver).last_run_ts = now
        ∧ (rsUpdateState prior ds wm st now ver).last_run_ts = now) :=
  delta_short_circuit_no_load envUnchangedUpstream rfl ⟨"redshift", rfl⟩
    rfl rfl rfl rfl rfl rfl rfl (by decide)

/-- C5: on tables with at least one primary-key column (the key part)
and at least one non-key column (the payload part), the PostgreSQL
ON CONFLICT upsert and the Redshift MERGE produce the same rows, namely
the spec-side union in which staging wins on key conflict; on the
concrete example both yield target keys 1, 2, 3 with the staged values
winning for keys 2 and 3. -/
theorem execute_merge_backend_parity :
    (∀ (target staging : List (Nat × String)),
        (keysOf staging).Nodup →
        pgExecuteMerge target staging = rsExecuteMerge target staging
        ∧ (∀ r, r ∈ pgExecuteMerge target staging ↔
            r ∈ mergeSpecRows target staging))
    ∧ pgExecuteMerge [(1, "a"), (2, "b")] [(2, "c"), (3, "d")]
        = [(1, "a"), (2, "c"), (3, "d")]
    ∧ rsExecuteMerge [(1, "a"), (2, "b")] [(2, "c"), (3, "d")]
        = [(1, "a"), (2, "c"), (3, "d")] := by
  refine ⟨fun target staging h =>
    ⟨pg_rs_merge_agree target staging h, fun r => ?_⟩, by decide, by decide⟩
  rw [pg_rs_merge_agree target staging h, rs_merge_mem target staging h r,
    mergeSpecRows_mem target staging r]

/-- Witness for C5 at the concrete example tables of the claim. -/
theorem execute_merge_backend_parity_witness :
    pgExecuteMerge [(1, "a"), (2, "b")] [(2, "c"), (3, "d")]
      = rsExecuteMerge [(1, "a"), (2, "b")] [(2, "c"), (3, "d")]
    ∧ ((2, "c") ∈ mergeSpecRows [(1, "a"), (2, "b")] [(2, "c"), (3, "d")] ↔
        (2, "c") ∈ pgExecuteMerge [(1, "a"), (2, "b")] [(2, "c"), (3, "d")]) :=
  ⟨(execute_merge_backend_parity.1 [(1, "a"), (2, "b")] [(2, "c"), (3, "d")]
      (by decide)).1,
    ((execute_merge_backend_parity.1 [(1, "a"), (2, "b")] [(2, "c"), (3, "d")]
      (by decide)).2 (2, "c")).symm⟩

/-- C6 counterexample: the claim says no individual loader method ever
commits in any backend adapter, but PostgreSQL bulk_load issues COMMIT
itself after a successful COPY. -/
theorem pg_bulk_load_commits :
    (pgBulkLoadOps false "append" "pmda_approvals" true).1
      = [DbOp.copyFrom "pmda_approvals", DbOp.commitTx]
    ∧ DbOp.commitTx ∈ (pgBulkLoadOps false "append" "pmda_approvals" true).1 := by
  decide

/-- C6 amended: the loader methods of the Redshift adapter
(ensure_schema, bulk_load, execute_merge, update_state) never commit,
deferring to the orchestrator commit; the four methods of the PostgreSQL
adapter each commit internally on their success path. -/
theorem loader_commit_split :
    (∀ (tables : List String) (ok : Bool),
        DbOp.commitTx ∉ rsEnsureSchemaOps tables ok)
    ∧ (∀ (e : Bool) (m t : String) (ok : Bool),
        DbOp.commitTx ∉ (rsBulkLoadOps e m t ok).1)
    ∧ (∀ (s t : String) (pks cols : List String) (ok : Bool),
        DbOp.commitTx ∉ (rsExecuteMergeOps s t pks cols ok).1)
    ∧ (∀ ok : Bool, DbOp.commitTx ∉ rsUpdateStateOps ok)
    ∧ DbOp.commitTx ∈ pgEnsureSchemaOps ["ingestion_state"] true
    ∧ DbOp.commitTx ∈ (pgBulkLoadOps false "overwrite" "pmda_approvals" true).1
    ∧ DbOp.commitTx
        ∈ (pgExecuteMergeOps "staging_t" "t" ["id"] ["id", "val"] true).1
    ∧ DbOp.commitTx ∈ pgUpdateStateOps true := by
  refine ⟨?_, ?_, ?_, ?_, by decide, by decide, by decide, by decide⟩
  · intro tables ok
    rcases ok with _ | _ <;> simp [rsEnsureSchemaOps]
  · intro e m t ok
    unfold rsBulkLoadOps
    split_ifs <;> simp
  · intro s t pks cols ok
    unfold rsExecuteMergeOps
    split_ifs <;> simp
  · intro ok
    rcases ok with _ | _ <;> simp [rsUpdateStateOps]

/-- C7: in every merge-mode `_load_table` call that reaches the staging
phase, the DROP TABLE IF EXISTS of the staging table is in the trace no
matter which of ensure_schema, bulk_load or execute_merge raises; and in
every `_load_table` call whatsoever, a created staging table is also
dropped. -/
theorem staging_drop_always_runs (env : OrchEnv) (t m : String)
    (hm : m = "merge")
    (hpk : pkMissing ((env.dsConfig.tblCfg t).primary_key) = false)
    (hdef : env.dsConfig.tableDefExists t = true)
    (hval : (env.dsConfig.tblCfg t).validation ≠ some false) :
    OrchAction.execSql ("DROP TABLE IF EXISTS " ++ env.dsConfig.schema_name
        ++ "." ++ ("staging_" ++ t) ++ ";") ∈ (loadTableActs env t m).1
    ∧ (∀ (env2 : OrchEnv) (t2 m2 s : String),
        OrchAction.ensureSchemaStaging s ∈ (loadTableActs env2 t2 m2).1 →
        OrchAction.execSql ("DROP TABLE IF EXISTS "
          ++ env2.dsConfig.schema_name ++ "." ++ s ++ ";")
          ∈ (loadTableActs env2 t2 m2).1) := by
  constructor
  · subst hm
    unfold loadTableActs
    rw [if_neg hval, if_pos rfl, if_neg (by simp [hpk]),
      if_neg (by simp [hdef])]
    simp [List.mem_append]
  · intro env2 t2 m2 s
    unfold loadTableActs
    rcases hv : (env2.dsConfig.tblCfg t2).validation with _ | b <;>
      simp only [hv] <;>
      split_ifs <;>
      (intro hmem; simp_all)

/-- Witness for C7 at a concrete merge run whose execute_merge raises. -/
theorem staging_drop_always_runs_witness :
    OrchAction.execSql
        ("DROP TABLE IF EXISTS " ++ "public" ++ "."
          ++ ("staging_" ++ "pmda_approvals") ++ ";")
      ∈ (loadTableActs envMergeFailing "pmda_approvals" "merge").1
    ∧ (∀ (env2 : OrchEnv) (t2 m2 s : String),
        OrchAction.ensureSchemaStaging s ∈ (loadTableActs env2 t2 m2).1 →
        OrchAction.execSql ("DROP TABLE IF EXISTS "
          ++ env2.dsConfig.schema_name ++ "." ++ s ++ ";")
          ∈ (loadTableActs env2 t2 m2).1) :=
  staging_drop_always_runs envMergeFailing "pmda_approvals" "merge" rfl
    rfl rfl (by decide)

/-- Whether an exception is the merge-configuration ValueError. -/
def isConfigValueError : Option PyError → Bool
  | some (PyError.valueError _) => true
  | _ => false

/-- C8 counterexample: the claim says the merge-without-primary-key
error is raised before any network or database call. In the concrete
merge run with no primary key the ValueError is indeed raised, but the
trace already contains the connect and extract calls when it is. -/
theorem merge_no_pk_error_not_before_connect :
    isConfigValueError (Orchestrator.run envMergeMissingPk).error = true
    ∧ OrchAction.connect ∈ (Orchestrator.run envMergeMissingPk).trace
    ∧ OrchAction.extractCall ∈ (Orchestrator.run envMergeMissingPk).trace := by
  decide

/-- C8 amended: a merge-mode run over a table with no configured primary
key raises a ValueError, and does so before any staging-table creation,
bulk load or merge call is made for that table; the connect and extract
calls, however, do precede it. -/
theorem merge_without_pk_raises_before_load (env : OrchEnv) (nw : Watermark)
    (hconf : env.datasetConfigured = true)
    (hok : ∃ a, get_db_adapter env.dbType = Except.ok a)
    (hconn : env.adapter.connectOk = true)
    (hschema : env.schemaDefExists = true)
    (hens : env.adapter.ensureSchemaOk = true)
    (hget : env.adapter.getStateOk = true)
    (hcls : env.etlClassesFound = true)
    (hex : env.extractResult = some nw)
    (hdelta : ¬(nw = env.lastState ∧ env.lastState ≠ []))
    (hparse : env.parseOk = true)
    (htrans : env.transformOk = true)
    (hout : env.transformOut = TransformOut.single false)
    (hmode : effectiveLoadMode env = "merge")
    (hpk : pkMissing
      ((env.dsConfig.tblCfg env.dsConfig.table_name).primary_key) = true)
    (hval : (env.dsConfig.tblCfg env.dsConfig.table_name).validation
      ≠ some false) :
    (∃ msg, (Orchestrator.run env).error = some (PyError.valueError msg))
    ∧ (Orchestrator.run env).trace.countP isBulkLoad = 0
    ∧ (Orchestrator.run env).trace.countP isMergeCall = 0
    ∧ (Orchestrator.run env).trace.countP isStagingCreate = 0
    ∧ OrchAction.connect ∈ (Orchestrator.run env).trace
    ∧ OrchAction.extractCall ∈ (Orchestrator.run env).trace := by
  obtain ⟨a, ha⟩ := hok
  have hld : loadDataActs env
      = loadTableActs env env.dsConfig.table_name "merge" := by
    simp [loadDataActs, hout, hmode]
  obtain ⟨⟨msg, hmsg⟩, hcb, hcm, hcs⟩ :=
    loadTableActs_merge_no_pk env env.dsConfig.table_name hpk hval
  have hbody := runBody_load_stage env nw hconn hschema hens hget hcls hex
    hdelta hparse htrans
  rw [hld] at hbody
  have hrun : Orchestrator.run env =
      ⟨([OrchAction.connect, OrchAction.ensureSchemaMain,
        OrchAction.getLatestState env.dataset, OrchAction.extractCall,
        OrchAction.parseCall, OrchAction.transformCall]
          ++ (loadTableActs env env.dsConfig.table_name "merge").1)
        ++ [OrchAction.alertSend, OrchAction.rollbackTx,
            OrchAction.disconnect],
        some (PyError.valueError msg)⟩ := by
    simp [Orchestrator.run, hconf, ha, hbody, hmsg, runFinallyActs]
  rw [hrun]
  refine ⟨⟨msg, rfl⟩, ?_, ?_, ?_, by simp, by simp⟩ <;>
    simp [List.countP_append, List.countP_cons, hcb, hcm, hcs,
      isBulkLoad, isMergeCall, isStagingCreate]

/-- Witness for the amended C8 at a concrete merge run with no primary
key configured. -/
theorem merge_without_pk_raises_before_load_witness :
    (∃ msg, (Orchestrator.run envMergeMissingPk).error
      = some (PyError.valueError msg))
    ∧ (Orchestrator.run envMergeMissingPk).trace.countP isBulkLoad = 0
    ∧ (Orchestrator.run envMergeMissingPk).trace.countP isMergeCall = 0
    ∧ (Orchestrator.run envMergeMissingPk).trace.countP isStagingCreate = 0
    ∧ OrchAction.connect ∈ (Orchestrator.run envMergeMissingPk).trace
    ∧ OrchAction.extractCall ∈ (Orchestrator.run envMergeMissingPk).trace :=
  merge_without_pk_raises_before_load envMergeMissingPk [("etag", "y")] rfl
    ⟨"redshift", rfl⟩ rfl rfl rfl rfl rfl rfl (by decide) rfl rfl rfl rfl
    (by decide) (by decide)

/-- C9: with retries = 3 against an endpoint failing twice then
succeeding, _send_request issues exactly 3 requests, returns the
response, and sleeps a backoff of at least base after the first failure
and at least 2 * base after the second (each backoff being the exact
exponential term plus the drawn jitter); when every attempt fails the
error is re-raised after exactly 3 requests. -/
theorem send_request_retry_backoff (base : ℚ) (env : FetchEnv)
    (h0 : env.ok 0 = false) (h1 : env.ok 1 = false) (h2 : env.ok 2 = true)
    (hj : ∀ i, 0 ≤ env.jitter i) :
    (sendRequest 3 base env).2 = true
    ∧ requestTally (sendRequest 3 base env).1 = 3
    ∧ backoffSleeps (sendRequest 3 base env).1
        = [base * 2 ^ 0 + env.jitter 0, base * 2 ^ 1 + env.jitter 1]
    ∧ base * 2 ^ 0 ≤ base * 2 ^ 0 + env.jitter 0
    ∧ base * 2 ^ 1 ≤ base * 2 ^ 1 + env.jitter 1
    ∧ (∀ env2 : FetchEnv, (∀ i, env2.ok i = false) →
        (sendRequest 3 base env2).2 = false
        ∧ requestTally (sendRequest 3 base env2).1 = 3) := by
  refine ⟨?_, ?_, ?_, by linarith [hj 0], by linarith [hj 1], ?_⟩
  · simp [sendRequest, sendAttempts, h0, h1, h2]
  · simp [sendRequest, sendAttempts, h0, h1, h2, requestTally]
  · simp [sendRequest, sendAttempts, h0, h1, h2, backoffSleeps]
  · intro env2 hall
    constructor
    · simp [sendRequest, sendAttempts, hall 0, hall 1, hall 2]
    · simp [sendRequest, sendAttempts, hall 0, hall 1, hall 2, requestTally]

/-- The fetch environment of the C9 witness: the two first attempts
fail, the third succeeds, the jitter draw is zero. -/
def witnessFetchEnv : FetchEnv := ⟨fun i => decide (i = 2), fun _ => 0⟩

/-- Witness for C9 at a concrete environment with backoff factor 1. -/
theorem send_request_retry_backoff_witness :
    (sendRequest 3 1 witnessFetchEnv).2 = true
    ∧ requestTally (sendRequest 3 1 witnessFetchEnv).1 = 3
    ∧ backoffSleeps (sendRequest 3 1 witnessFetchEnv).1
        = [1 * 2 ^ 0 + witnessFetchEnv.jitter 0,
           1 * 2 ^ 1 + witnessFetchEnv.jitter 1]
    ∧ (1 : ℚ) * 2 ^ 0 ≤ 1 * 2 ^ 0 + witnessFetchEnv.jitter 0
    ∧ (1 : ℚ) * 2 ^ 1 ≤ 1 * 2 ^ 1 + witnessFetchEnv.jitter 1
    ∧ (∀ env2 : FetchEnv, (∀ i, env2.ok i = false) →
        (sendRequest 3 1 env2).2 = false
        ∧ requestTally (sendRequest 3 1 env2).1 = 3) :=
  send_request_retry_backoff 1 witnessFetchEnv rfl rfl rfl
    (fun _ => le_refl 0)

/-- C10: validate with the single not_null rule on the id column returns
false on the frame whose id column is 1, null, 3 and records exactly one
error mentioning 1 null values; it returns true with no error on the
frame whose id column is 1, 2, 3. -/
theorem validator_not_null_determinism :
    (validate (some [notNullIdRule]) frameWithNull).1 = false
    ∧ (validate (some [notNullIdRule]) frameWithNull).2.length = 1
    ∧ strOccurs "1 null values"
        ((validate (some [notNullIdRule]) frameWithNull).2.headD "") = true
    ∧ validate (some [notNullIdRule]) frameNoNull = (true, []) := by
  refine ⟨by decide, by decide, by decide, by decide⟩

end PyLoadPmda
